import Mathlib

/-!
Shallow embedding of the PEX interview core of the obsidian-hermes
repository: the quadrant classifier, session state machine,
layer-completion policy and queue builder from
src/services/pexState.ts and src/tools/pex_interview.ts, and the
background analyzer belief model (System 2) from the same service
file.  Machine numbers are modelled as Int (JS numbers used here are
integers), JS object maps as association lists with JS spread-update
semantics, and Date.now() as an explicit `now` argument.  The
theorems at the end check the specification claims against these
definitions.
-/

/-- Phase enum `PexPhase` from pexState.ts. -/
inductive PexPhase
  | idle
  | scope
  | probe
  | map
  | dig
  | fill
  | hypercorrect
  | retest
  deriving DecidableEq, Repr

/-- Quadrant enum `Quadrant` from pexState.ts. -/
inductive Quadrant
  | SOLID
  | UNDERCONFIDENT
  | GAP
  | HYPERCORRECTION_TARGET
  deriving DecidableEq, Repr

/-- Layer enum `ProbeLayer` from pexState.ts. -/
inductive ProbeLayer
  | recall
  | mechanism
  | clinical
  | quantitative
  deriving DecidableEq, Repr

instance : Fintype ProbeLayer where
  elems := {ProbeLayer.recall, ProbeLayer.mechanism, ProbeLayer.clinical,
    ProbeLayer.quantitative}
  complete := by intro x; cases x <;> decide

/-- Interface `ProbeResult` from pexState.ts: one append-only log entry. -/
structure ProbeResult where
  vertex : String
  layer : ProbeLayer
  level : Int
  score : Int
  quadrant : Quadrant
  answerSummary : String
  confident : Bool
  timestamp : Int
  deriving DecidableEq, Repr

/-- Interface `VertexState` from pexState.ts. -/
structure VertexState where
  name : String
  description : String
  domains : List String
  subTopics : List String
  bestScore : Int
  quadrant : Option Quadrant
  probeCount : Int
  filled : Bool
  corrected : Bool
  probedLayers : List ProbeLayer
  deriving DecidableEq, Repr

/-- Interface `PexSessionState` from pexState.ts.  The `vertices` record is
modelled as an association list with JS spread-update semantics. -/
structure PexSessionState where
  phase : PexPhase
  college : String
  domains : List String
  depth : String
  vertexQueue : List String
  currentVertexIndex : Nat
  vertices : List (String × VertexState)
  probeHistory : List ProbeResult
  startedAt : Int
  deriving DecidableEq, Repr

/-- JS object spread update `\x7b ...m, [k]: v \x7d`: replaces the binding in
place if the key exists (JS object keys are unique and keep their insertion
order), else appends the new binding at the end. -/
def setEntry {α : Type} (m : List (String × α)) (k : String) (v : α) :
    List (String × α) :=
  match m with
  | [] => [(k, v)]
  | (a, b) :: t => if a == k then (k, v) :: t else (a, b) :: setEntry t k v

/-- Function `classifyQuadrant` from pexState.ts: first-match-wins over the
ordered branch list exactly as written in the source. -/
def classifyQuadrant (score : Int) (confident : Bool) : Quadrant :=
  if 4 ≤ score ∧ confident then .SOLID
  else if 4 ≤ score ∧ ¬confident then .UNDERCONFIDENT
  else if 3 ≤ score ∧ ¬confident then .UNDERCONFIDENT
  else if 3 ≤ score ∧ confident then .SOLID
  else if score ≤ 2 ∧ confident then .HYPERCORRECTION_TARGET
  else .GAP

/-- Canonical classifier rule set written from the words of spec section 4.3
(first-match-wins), for comparison with the source `classifyQuadrant`. -/
def specClassify (score : Int) (confident : Bool) : Quadrant :=
  if 4 ≤ score ∧ confident then .SOLID
  else if 3 ≤ score ∧ ¬confident then .UNDERCONFIDENT
  else if 3 ≤ score ∧ confident then .SOLID
  else if score ≤ 2 ∧ confident then .HYPERCORRECTION_TARGET
  else .GAP

/-- Constant `PROBE_LAYERS` from pexState.ts. -/
def PROBE_LAYERS : List ProbeLayer :=
  [.recall, .mechanism, .clinical, .quantitative]

/-- Argument record of `recordProbe` from pexState.ts. -/
structure ProbeInput where
  vertex : String
  layer : ProbeLayer
  level : Int
  score : Int
  confident : Bool
  answerSummary : String
  deriving DecidableEq, Repr

/-- Function `recordProbe` from pexState.ts, with the module-level mutable
session state passed explicitly and Date.now() as the `now` argument. -/
def recordProbe (s : PexSessionState) (probe : ProbeInput) (now : Int) :
    PexSessionState :=
  let quadrant := classifyQuadrant probe.score probe.confident
  let result : ProbeResult :=
    { vertex := probe.vertex
      layer := probe.layer
      level := probe.level
      score := probe.score
      quadrant := quadrant
      confident := probe.confident
      answerSummary := probe.answerSummary
      timestamp := now }
  match s.vertices.lookup probe.vertex with
  | none => s
  | some existing =>
    let updatedLayers :=
      if probe.layer ∈ existing.probedLayers then existing.probedLayers
      else existing.probedLayers ++ [probe.layer]
    let updatedVertex : VertexState :=
      { existing with
        bestScore := max existing.bestScore probe.score
        quadrant := some quadrant
        probeCount := existing.probeCount + 1
        probedLayers := updatedLayers }
    { s with
      vertices := setEntry s.vertices probe.vertex updatedVertex
      probeHistory := s.probeHistory ++ [result] }

/-- Function `advanceVertex` from pexState.ts. -/
def advanceVertex (s : PexSessionState) : PexSessionState :=
  let nextIndex := s.currentVertexIndex + 1
  let newPhase : PexPhase :=
    if s.vertexQueue.length ≤ nextIndex then .fill else .probe
  { s with currentVertexIndex := nextIndex, phase := newPhase }

/-- Function `setPhase` from pexState.ts. -/
def setPhase (s : PexSessionState) (phase : PexPhase) : PexSessionState :=
  { s with phase := phase }

/-- Function `markFilled` from pexState.ts. -/
def markFilled (s : PexSessionState) (vertex : String) : PexSessionState :=
  match s.vertices.lookup vertex with
  | none => s
  | some existing =>
    { s with vertices := setEntry s.vertices vertex { existing with filled := true } }

/-- Function `markCorrected` from pexState.ts. -/
def markCorrected (s : PexSessionState) (vertex : String) : PexSessionState :=
  match s.vertices.lookup vertex with
  | none => s
  | some existing =>
    { s with vertices := setEntry s.vertices vertex { existing with corrected := true } }

/-- Function `getNextUnprobedLayer` from pexState.ts. -/
def getNextUnprobedLayer (s : PexSessionState) (vertex : String) :
    Option ProbeLayer :=
  match s.vertices.lookup vertex with
  | none => some .recall
  | some existing =>
    PROBE_LAYERS.find? (fun layer => !(existing.probedLayers.contains layer))

/-- Function `isVertexLayerComplete` from pexState.ts. -/
def isVertexLayerComplete (s : PexSessionState) (vertex : String) : Bool :=
  match s.vertices.lookup vertex with
  | none => false
  | some existing =>
    if 4 ≤ existing.probedLayers.length then true
    else
      let probes := s.probeHistory.filter (fun p => p.vertex == vertex)
      let weakProbes := probes.filter (fun p => decide (p.score ≤ 2))
      if 2 ≤ weakProbes.length then true
      else
        let strongProbes := probes.filter (fun p => decide (4 ≤ p.score))
        if 2 ≤ strongProbes.length then true
        else false

/-- Interface `VertexDef` from pex_interview.ts. -/
structure VertexDef where
  description : String
  domains : List String
  subTopics : List String
  deriving DecidableEq, Repr

/-- Constant `VERTEX_DATA` from pex_interview.ts (embedded vertex catalog). -/
def VERTEX_DATA : List (String × VertexDef) :=
  [ ("Flow=ΔP/R",
     { description := "Ohmic flow: systemic/pulmonary/cerebral/renal circulation, airway resistance, breathing circuits"
       domains := ["Physiology", "Measurement/Physics"]
       subTopics := ["Systemic circulation", "Coronary flow", "Cerebral autoregulation",
         "Pulmonary circulation", "Airway resistance", "Work of breathing",
         "Renal blood flow", "CBF regulation"] }),
    ("τ=V/Q",
     { description := "Time constant: lung washout/washin, regional time constants, elimination kinetics, FA/FI curves"
       domains := ["Physiology", "Pharmacology"]
       subTopics := ["Lung washout/washin", "Time constants (regional)",
         "Elimination kinetics", "Monitor response time", "Volatile FA/FI curves",
         "CSHT"] }),
    ("Fick",
     { description := "Fick principle: CO measurement, O2 delivery/consumption, gas exchange, RPF measurement"
       domains := ["Physiology"]
       subTopics := ["CO measurement", "O2 delivery/consumption", "Gas exchange/VO2",
         "RPF measurement (PAH)"] }),
    ("Cl=E×Q",
     { description := "Clearance: hepatic/renal drug clearance, extraction ratio, protein binding"
       domains := ["Pharmacology"]
       subTopics := ["Hepatic clearance", "Renal clearance (drugs)", "Extraction ratio",
         "Protein binding displacement", "Enzyme induction/inhibition"] }),
    ("Hill",
     { description := "Hill equation: dose-response, receptor occupancy, O2-Hb dissociation, synaptic kinetics, force-Ca2+"
       domains := ["Physiology", "Pharmacology"]
       subTopics := ["Potency/efficacy/TI", "Receptor occupancy theory",
         "O2-Hb dissociation curve", "Synaptic receptor kinetics",
         "Force-Ca2+ relationship", "Synergism/antagonism"] }),
    ("Starling",
     { description := "Starling forces: capillary dynamics, glomerular filtration, Frank-Starling cardiac mechanics"
       domains := ["Physiology"]
       subTopics := ["Capillary dynamics", "Glomerular filtration",
         "Cardiac mechanics (Frank-Starling)", "Oedema formation"] }),
    ("Nernst",
     { description := "Nernst equation: resting membrane potential, action potential, cardiac AP, NMJ, tubular transport, Na+ channel block"
       domains := ["Physiology", "Pharmacology"]
       subTopics := ["Resting membrane potential", "Action potential phases (GHK)",
         "Cardiac AP", "NMJ/motor endplate", "Tubular transport potentials",
         "Na+ channel block (LA)"] }),
    ("Laplace",
     { description := "Laplace law: alveolar mechanics, ventricular wall stress, surfactant, bubble/cuff physics"
       domains := ["Physiology", "Measurement/Physics"]
       subTopics := ["Alveolar mechanics/surfactant", "Ventricular wall stress",
         "Bubble/cuff physics", "Wall tension (cardiac)"] }),
    ("Henderson-Hasselbalch",
     { description := "Acid-base: respiratory and renal components, pH-trapping"
       domains := ["Physiology"]
       subTopics := ["Respiratory acid-base", "Renal acid-base", "pH-trapping",
         "Buffer systems"] }),
    ("Michaelis-Menten",
     { description := "Zero-order kinetics, saturation, enzyme kinetics"
       domains := ["Pharmacology"]
       subTopics := ["Zero-order kinetics", "Enzyme saturation", "Vmax and Km",
         "Alcohol metabolism"] }),
    ("Beer-Lambert",
     { description := "Pulse oximetry, co-oximetry, spectrophotometry"
       domains := ["Measurement/Physics"]
       subTopics := ["Pulse oximetry", "Co-oximetry", "Spectrophotometry",
         "Isobestic points"] }) ]

/-- Per-college weights record from pex_interview.ts. -/
structure CollegeWeightPair where
  cicm : Rat
  anzca : Rat
  deriving DecidableEq, Repr

/-- Constant `COLLEGE_WEIGHTS` from pex_interview.ts. -/
def COLLEGE_WEIGHTS : List (String × CollegeWeightPair) :=
  [ ("Flow=ΔP/R", { cicm := 1.2, anzca := 1.0 }),
    ("τ=V/Q", { cicm := 1.0, anzca := 1.2 }),
    ("Fick", { cicm := 1.2, anzca := 0.8 }),
    ("Cl=E×Q", { cicm := 1.0, anzca := 1.2 }),
    ("Hill", { cicm := 1.0, anzca := 1.0 }),
    ("Starling", { cicm := 1.2, anzca := 0.8 }),
    ("Nernst", { cicm := 0.8, anzca := 1.2 }),
    ("Laplace", { cicm := 1.0, anzca := 1.0 }) ]

/-- Constant `DEFAULT_PRIORITY` from pex_interview.ts (catalog order). -/
def DEFAULT_PRIORITY : List String :=
  [ "Flow=ΔP/R", "τ=V/Q", "Fick", "Hill", "Starling", "Cl=E×Q", "Nernst",
    "Laplace", "Henderson-Hasselbalch", "Michaelis-Menten", "Beer-Lambert" ]

/-- Weight used in the comparator of `buildVertexQueue`: the requested
college's per-vertex weight, defaulting to 1 for unweighted vertices
(the `wA?.cicm ?? 1` / `wA?.anzca ?? 1` expressions in the source). -/
def collegeWeight (college : String) (v : String) : Rat :=
  match COLLEGE_WEIGHTS.lookup v with
  | some w => if college = "CICM" then w.cicm else w.anzca
  | none => 1

/-- Filter predicate of `buildVertexQueue` from pex_interview.ts: the vertex
must exist in the catalog and (if a domain filter is given) share a domain. -/
def domainMatch (domains : List String) (v : String) : Bool :=
  match VERTEX_DATA.lookup v with
  | none => false
  | some d => domains.isEmpty || d.domains.any (fun x => domains.contains x)

/-- Function `buildVertexQueue` from pex_interview.ts.  The JS
`Array.prototype.sort` call is a stable sort (ES2019) by the comparator
`weightB - weightA`; it is modelled by the stable `List.mergeSort` with
the corresponding boolean order. -/
def buildVertexQueue (domains : List String) (college : String) :
    List String :=
  let filtered := DEFAULT_PRIORITY.filter (domainMatch domains)
  if college = "Both" then filtered
  else
    filtered.mergeSort
      (fun a b => decide (collegeWeight college b ≤ collegeWeight college a))

/-- Interface `LayerProbe` from pexState.ts (System 2). -/
structure LayerProbe where
  layer : ProbeLayer
  question : String
  answerSummary : String
  score : Int
  confident : Bool
  timestamp : Int
  deriving DecidableEq, Repr

/-- Per-vertex accumulator of the `BeliefState` record from pexState.ts. -/
structure VertexBelief where
  layers : List LayerProbe
  overallStrength : Rat
  confidenceCalibration : Rat
  knownMisconceptions : List String
  deriving DecidableEq, Repr

/-- Interface `BeliefState` from pexState.ts (System 2). -/
structure BeliefState where
  vertexBeliefs : List (String × VertexBelief)
  sessionInsights : List String
  deriving DecidableEq, Repr

/-- Interface `ProbeAnalysis` from pexState.ts.  The source types
`depthReached` as a string union but fills it from unvalidated JSON, so it
is modelled as a plain string; `suggestedNextLayer` always comes from
`getNextLayer`, so it is modelled as an optional layer. -/
structure ProbeAnalysis where
  adjustedScore : Int
  adjustedConfidence : Bool
  quadrant : Quadrant
  reasoning : String
  followUpAngles : List String
  misconceptions : List String
  depthReached : String
  suggestedNextLayer : Option ProbeLayer
  deriving DecidableEq, Repr

/-- Constant `LAYER_ORDER` from pexState.ts. -/
def LAYER_ORDER : List ProbeLayer :=
  [.recall, .mechanism, .clinical, .quantitative]

/-- Parameter record of `BackgroundAnalyzer.analyzeProbe` from pexState.ts. -/
structure AnalyzeParams where
  vertex : String
  vertexDescription : String
  layer : ProbeLayer
  question : String
  answerSummary : String
  rawScore : Int
  confident : Bool
  deriving DecidableEq, Repr

/-- Fields of the JSON verdict parsed from the external language-model
response in `runDeepAnalysis`: each field may be absent or of the wrong
type (the source guards each with `??` / typeof / Array.isArray checks, so
only the values surviving those checks are modelled). -/
structure LLMVerdict where
  adjustedScore : Option Rat
  adjustedConfidence : Option Bool
  misconceptions : List String
  depthReached : Option String
  followUpAngles : List String
  reasoning : Option String
  deriving DecidableEq, Repr

/-- JS `Math.round`: round half toward positive infinity. -/
def jsRound (x : Rat) : Int :=
  Rat.floor (x + 1 / 2)

/-- Method `calculateConfidenceCalibration` from pexState.ts. -/
def calculateConfidenceCalibration (layers : List LayerProbe) : Rat :=
  if layers.length = 0 then 1
  else
    (layers.foldl
      (fun acc l =>
        if decide (3 ≤ l.score) = l.confident then acc + 1 else acc + 0)
      (0 : Rat)) / (layers.length : Rat)

/-- Default accumulator used when a vertex has no beliefs yet (the `??`
object literal in `analyzeProbe`). -/
def emptyVertexBelief : VertexBelief :=
  { layers := []
    overallStrength := 0
    confidenceCalibration := 1
    knownMisconceptions := [] }

/-- Method `getNextLayer` from pexState.ts (System 2).  The loop over
`LAYER_ORDER` returning the first unprobed layer is `List.find?`; the
trailing weak-layer check in the source returns null on both branches and
is kept as written. -/
def getNextLayer (bs : BeliefState) (vertex : String) : Option ProbeLayer :=
  match bs.vertexBeliefs.lookup vertex with
  | none => some .recall
  | some beliefs =>
    let probedLayers := beliefs.layers.map (fun l => l.layer)
    match LAYER_ORDER.find? (fun layer => !(probedLayers.contains layer)) with
    | some layer => some layer
    | none =>
      let weakLayers := beliefs.layers.filter (fun l => decide (l.score ≤ 2))
      if 0 < weakLayers.length then none else none

/-- LayerProbe record built at the top of `analyzeProbe` (step 1). -/
def mkLayerProbe (params : AnalyzeParams) (now : Int) : LayerProbe :=
  { layer := params.layer
    question := params.question
    answerSummary := params.answerSummary
    score := params.rawScore
    confident := params.confident
    timestamp := now }

/-- Steps 1 to 3 of `analyzeProbe` from pexState.ts: append the layer probe
to the vertex accumulator, recompute `overallStrength` as the rounded mean
of all layer scores, recompute `confidenceCalibration`, and write the
updated accumulator back into the belief state. -/
def beliefUpdate (bs : BeliefState) (params : AnalyzeParams) (now : Int) :
    BeliefState :=
  let layerProbe := mkLayerProbe params now
  let existingBeliefs :=
    (bs.vertexBeliefs.lookup params.vertex).getD emptyVertexBelief
  let updatedLayers := existingBeliefs.layers ++ [layerProbe]
  let scores := updatedLayers.map (fun l => l.score)
  let overallStrength : Rat :=
    ((scores.foldl (· + ·) 0 : Int) : Rat) / (scores.length : Rat)
  let confidenceCalibration := calculateConfidenceCalibration updatedLayers
  { bs with
    vertexBeliefs := setEntry bs.vertexBeliefs params.vertex
      { existingBeliefs with
        layers := updatedLayers
        overallStrength := ((jsRound (overallStrength * 10) : Int) : Rat) / 10
        confidenceCalibration :=
          ((jsRound (confidenceCalibration * 100) : Int) : Rat) / 100 } }

/-- Method `runDeepAnalysis` from pexState.ts, after the external call has
returned and its JSON body has parsed: clamp the adjusted score into [1,5],
reclassify with `classifyQuadrant`, merge new misconceptions into the
de-duplicated set (the `[...new Set(...)]` spread is `List.eraseDups`),
and pick the suggested next layer. -/
def runDeepAnalysis (bs : BeliefState) (params : AnalyzeParams)
    (parsed : LLMVerdict) : BeliefState × ProbeAnalysis :=
  let adjustedScore :=
    max 1 (min 5 (jsRound (parsed.adjustedScore.getD (params.rawScore : Rat))))
  let adjustedConfidence := parsed.adjustedConfidence.getD params.confident
  let quadrant := classifyQuadrant adjustedScore adjustedConfidence
  let misconceptions := parsed.misconceptions
  let bs2 :=
    if 0 < misconceptions.length then
      match bs.vertexBeliefs.lookup params.vertex with
      | none => bs
      | some existingBeliefs =>
        let allMisconceptions :=
          (existingBeliefs.knownMisconceptions ++ misconceptions).eraseDups
        { bs with
          vertexBeliefs := setEntry bs.vertexBeliefs params.vertex
            { existingBeliefs with knownMisconceptions := allMisconceptions } }
    else bs
  let nextLayer := getNextLayer bs2 params.vertex
  (bs2,
   { adjustedScore := adjustedScore
     adjustedConfidence := adjustedConfidence
     quadrant := quadrant
     reasoning := parsed.reasoning.getD ""
     followUpAngles := parsed.followUpAngles
     misconceptions := misconceptions
     depthReached := parsed.depthReached.getD "surface"
     suggestedNextLayer := nextLayer })

/-- Method `fallbackAnalysis` from pexState.ts: echo the raw score and
confidence through the classifier with empty misconceptions and surface
depth. -/
def fallbackAnalysis (bs : BeliefState) (params : AnalyzeParams) :
    ProbeAnalysis :=
  let quadrant := classifyQuadrant params.rawScore params.confident
  let nextLayer := getNextLayer bs params.vertex
  { adjustedScore := params.rawScore
    adjustedConfidence := params.confident
    quadrant := quadrant
    reasoning := "Fallback analysis — deep analysis unavailable."
    followUpAngles := []
    misconceptions := []
    depthReached := "surface"
    suggestedNextLayer := nextLayer }

/-- Method `BackgroundAnalyzer.analyzeProbe` from pexState.ts, with the
mutable `beliefState` field passed explicitly.  The awaited external
language-model round-trip is the `llmResult` oracle: `some parsed` when
the call returned and its JSON body parsed, `none` when it threw or the
body was unparseable (both land in the same catch in the source). -/
def analyzeProbe (bs : BeliefState) (params : AnalyzeParams) (now : Int)
    (llmResult : Option LLMVerdict) : BeliefState × ProbeAnalysis :=
  let bs1 := beliefUpdate bs params now
  match llmResult with
  | some parsed => runDeepAnalysis bs1 params parsed
  | none => (bs1, fallbackAnalysis bs1 params)

/-- Lookup after a JS spread update: the updated key maps to the new value,
every other key is untouched. -/
theorem lookup_setEntry {α : Type} (m : List (String × α)) (k k' : String)
    (v : α) :
    (setEntry m k v).lookup k' = if k' = k then some v else m.lookup k' := by
  induction m with
  | nil =>
    by_cases hk : k' = k
    · simp [setEntry, List.lookup, hk]
    · simp [setEntry, List.lookup, hk,
        show (k' == k) = false from beq_eq_false_iff_ne.mpr hk]
  | cons e t ih =>
    obtain ⟨a, b⟩ := e
    by_cases hak : a = k
    · subst hak
      by_cases hk : k' = a
      · subst hk
        simp [setEntry, List.lookup, beq_self_eq_true]
      · simp [setEntry, List.lookup, beq_self_eq_true, hk,
          show (k' == a) = false from beq_eq_false_iff_ne.mpr hk]
    · have hb : (a == k) = false := beq_eq_false_iff_ne.mpr hak
      by_cases hk'a : k' = a
      · subst hk'a
        simp [setEntry, List.lookup, hb, beq_self_eq_true,
          show ¬(k' = k) from fun h => hak (h ▸ rfl)]
      · simp [setEntry, List.lookup, hb,
          show (k' == a) = false from beq_eq_false_iff_ne.mpr hk'a, ih]

/-- C1: for every score in 1..5 and both confidence flags,
`classifyQuadrant` agrees with the canonical rule set of spec section 4.3.
Totality and determinism hold by construction: the embedding is a total
function, so the same inputs always give the same single quadrant. -/
theorem classifyQuadrant_agrees_with_spec (score : Int) (confident : Bool)
    (h1 : 1 ≤ score) (h5 : score ≤ 5) :
    classifyQuadrant score confident = specClassify score confident := by
  interval_cases score <;> cases confident <;> decide

/-- Witness for C1: the theorem applied at score 3, confident. -/
theorem classifyQuadrant_agrees_with_spec_witness :
    classifyQuadrant 3 true = specClassify 3 true :=
  classifyQuadrant_agrees_with_spec 3 true (by decide) (by decide)

/-- Current vertex as reported by executeAdvanceVertex in pex_interview.ts:
the queue element at the current index, or nothing when the pointer is past
the end (the undefined array read in the source). -/
def currentVertex (s : PexSessionState) : Option String :=
  s.vertexQueue[s.currentVertexIndex]?

/-- Mutating operations of the session state machine, for stating
invariants over every operation other than session re-initialization. -/
inductive PexOp
  | record (p : ProbeInput) (now : Int)
  | advance
  | setPh (ph : PexPhase)
  | markF (v : String)
  | markC (v : String)

/-- Dispatch a session-state operation. -/
def applyOp (s : PexSessionState) : PexOp → PexSessionState
  | .record p now => recordProbe s p now
  | .advance => advanceVertex s
  | .setPh ph => setPhase s ph
  | .markF v => markFilled s v
  | .markC v => markCorrected s v

/-- Demo vertex state used to instantiate witnesses. -/
def demoVertexState : VertexState :=
  { name := "Fick"
    description := "Fick principle"
    domains := ["Physiology"]
    subTopics := []
    bestScore := 2
    quadrant := none
    probeCount := 0
    filled := false
    corrected := false
    probedLayers := [.recall] }

/-- Demo session state used to instantiate witnesses. -/
def demoState : PexSessionState :=
  { phase := .probe
    college := "Both"
    domains := []
    depth := "Broad BFS"
    vertexQueue := ["Fick"]
    currentVertexIndex := 0
    vertices := [("Fick", demoVertexState)]
    probeHistory := []
    startedAt := 0 }

/-- Demo probe on a layer that is already in the probed-layer set. -/
def demoProbe : ProbeInput :=
  { vertex := "Fick"
    layer := .recall
    level := 1
    score := 4
    confident := true
    answerSummary := "ok" }

/-- Vertex state expected after `recordProbe demoState demoProbe`. -/
def demoVertexStateAfter : VertexState :=
  { demoVertexState with
    bestScore := 4
    quadrant := some .SOLID
    probeCount := 1 }

/-- C5: a `recordProbe` call whose vertex is not a key of the session's
vertex map returns the entire session state unchanged: no vertex state is
modified and nothing is appended to the probe log. -/
theorem recordProbe_unknown_vertex_noop (s : PexSessionState)
    (p : ProbeInput) (now : Int)
    (h : s.vertices.lookup p.vertex = none) :
    recordProbe s p now = s := by
  simp [recordProbe, h]

/-- Witness for C5: recording against a vertex absent from the demo session
leaves the state untouched. -/
theorem recordProbe_unknown_vertex_noop_witness :
    recordProbe demoState
      { vertex := "Unknown"
        layer := .recall
        level := 1
        score := 3
        confident := false
        answerSummary := "" } 7 = demoState :=
  recordProbe_unknown_vertex_noop demoState
    { vertex := "Unknown"
      layer := .recall
      level := 1
      score := 3
      confident := false
      answerSummary := "" } 7 (by rfl)

/-- C3: under every session-state operation other than re-initialization,
a vertex's `bestScore` never decreases; in particular any sequence of
`recordProbe` calls is monotonically non-decreasing step by step. -/
theorem bestScore_monotone_under_ops (s : PexSessionState) (op : PexOp)
    (v : String) (vs vs' : VertexState)
    (hv : s.vertices.lookup v = some vs)
    (hv' : (applyOp s op).vertices.lookup v = some vs') :
    vs.bestScore ≤ vs'.bestScore := by
  cases op with
  | record p now =>
    rcases hpv : s.vertices.lookup p.vertex with _ | existing
    · simp only [applyOp, recordProbe, hpv] at hv'
      rw [hv] at hv'
      cases hv'
      exact le_refl _
    · simp only [applyOp, recordProbe, hpv, lookup_setEntry] at hv'
      by_cases hveq : v = p.vertex
      · subst hveq
        rw [hpv] at hv
        cases hv
        rw [if_pos rfl] at hv'
        cases hv'
        exact le_max_left _ _
      · rw [if_neg hveq, hv] at hv'
        cases hv'
        exact le_refl _
  | advance =>
    simp only [applyOp, advanceVertex] at hv'
    rw [hv] at hv'
    cases hv'
    exact le_refl _
  | setPh ph =>
    simp only [applyOp, setPhase] at hv'
    rw [hv] at hv'
    cases hv'
    exact le_refl _
  | markF w =>
    rcases hpv : s.vertices.lookup w with _ | existing
    · simp only [applyOp, markFilled, hpv] at hv'
      rw [hv] at hv'
      cases hv'
      exact le_refl _
    · simp only [applyOp, markFilled, hpv, lookup_setEntry] at hv'
      by_cases hveq : v = w
      · subst hveq
        rw [hpv] at hv
        cases hv
        rw [if_pos rfl] at hv'
        cases hv'
        exact le_refl _
      · rw [if_neg hveq, hv] at hv'
        cases hv'
        exact le_refl _
  | markC w =>
    rcases hpv : s.vertices.lookup w with _ | existing
    · simp only [applyOp, markCorrected, hpv] at hv'
      rw [hv] at hv'
      cases hv'
      exact le_refl _
    · simp only [applyOp, markCorrected, hpv, lookup_setEntry] at hv'
      by_cases hveq : v = w
      · subst hveq
        rw [hpv] at hv
        cases hv
        rw [if_pos rfl] at hv'
        cases hv'
        exact le_refl _
      · rw [if_neg hveq, hv] at hv'
        cases hv'
        exact le_refl _

/-- Witness for C3: recording a probe on the demo session raises the best
score from 2 to 4 and does not lower it. -/
theorem bestScore_monotone_under_ops_witness :
    demoVertexState.bestScore ≤ demoVertexStateAfter.bestScore :=
  bestScore_monotone_under_ops demoState (.record demoProbe 5) "Fick"
    demoVertexState demoVertexStateAfter (by rfl) (by rfl)

/-- C7: recording a probe on a known vertex increments `probeCount` every
time, while a layer already present in `probedLayers` is not added again
(and an absent layer is appended exactly once). -/
theorem recordProbe_layer_set_idempotent (s : PexSessionState)
    (p : ProbeInput) (now : Int) (vs : VertexState)
    (hv : s.vertices.lookup p.vertex = some vs) :
    ∃ vs', (recordProbe s p now).vertices.lookup p.vertex = some vs' ∧
      vs'.probeCount = vs.probeCount + 1 ∧
      (p.layer ∈ vs.probedLayers → vs'.probedLayers = vs.probedLayers) ∧
      (p.layer ∉ vs.probedLayers →
        vs'.probedLayers = vs.probedLayers ++ [p.layer]) := by
  by_cases hmem : p.layer ∈ vs.probedLayers
  · refine ⟨{ vs with
        bestScore := max vs.bestScore p.score
        quadrant := some (classifyQuadrant p.score p.confident)
        probeCount := vs.probeCount + 1
        probedLayers := vs.probedLayers }, ?_, rfl, fun _ => rfl,
      fun hc => absurd hmem hc⟩
    simp [recordProbe, hv, lookup_setEntry, hmem]
  · refine ⟨{ vs with
        bestScore := max vs.bestScore p.score
        quadrant := some (classifyQuadrant p.score p.confident)
        probeCount := vs.probeCount + 1
        probedLayers := vs.probedLayers ++ [p.layer] }, ?_, rfl,
      fun hc => absurd hc hmem, fun _ => rfl⟩
    simp [recordProbe, hv, lookup_setEntry, hmem]

/-- Witness for C7: re-recording the recall layer on the demo vertex leaves
the probed-layer set unchanged while the probe count increments. -/
theorem recordProbe_layer_set_idempotent_witness :
    ∃ vs', (recordProbe demoState demoProbe 5).vertices.lookup
        demoProbe.vertex = some vs' ∧
      vs'.probeCount = demoVertexState.probeCount + 1 ∧
      (demoProbe.layer ∈ demoVertexState.probedLayers →
        vs'.probedLayers = demoVertexState.probedLayers) ∧
      (demoProbe.layer ∉ demoVertexState.probedLayers →
        vs'.probedLayers = demoVertexState.probedLayers ++ [demoProbe.layer]) :=
  recordProbe_layer_set_idempotent demoState demoProbe 5 demoVertexState
    (by rfl)

/-- C9: `advanceVertex` always increments the vertex pointer by one; the
phase becomes fill exactly when the new pointer is at or past the end of
the queue (probe otherwise); the reported current vertex is the queue
element at the new pointer, absent exactly when the pointer is past the
end; and a further call still increments without error. -/
theorem advanceVertex_increments_and_reports (s : PexSessionState) :
    (advanceVertex s).currentVertexIndex = s.currentVertexIndex + 1 ∧
    (advanceVertex s).phase =
      (if s.vertexQueue.length ≤ s.currentVertexIndex + 1 then PexPhase.fill
       else PexPhase.probe) ∧
    (currentVertex (advanceVertex s) = none ↔
      s.vertexQueue.length ≤ s.currentVertexIndex + 1) ∧
    currentVertex (advanceVertex s) =
      s.vertexQueue[s.currentVertexIndex + 1]? ∧
    (advanceVertex (advanceVertex s)).currentVertexIndex =
      s.currentVertexIndex + 2 := by
  refine ⟨rfl, rfl, ?_, rfl, rfl⟩
  simp [currentVertex, advanceVertex, List.getElem?_eq_none_iff]

/-- C10: whenever the incremented pointer is still within the queue,
`advanceVertex` unconditionally sets the phase to probe, overwriting
whatever phase the caller had set via `setPhase`; its resulting phase is
always probe or fill, never anything else. -/
theorem advanceVertex_overwrites_caller_phase (s : PexSessionState)
    (ph : PexPhase) :
    (advanceVertex (setPhase s ph)).phase =
      (if s.vertexQueue.length ≤ s.currentVertexIndex + 1 then PexPhase.fill
       else PexPhase.probe) ∧
    ((advanceVertex s).phase = PexPhase.probe ∨
      (advanceVertex s).phase = PexPhase.fill) := by
  constructor
  · rfl
  · simp only [advanceVertex]
    by_cases h : s.vertexQueue.length ≤ s.currentVertexIndex + 1
    · exact Or.inr (by simp [h])
    · exact Or.inl (by simp [h])

/-- Nodup lists of probe layers have length at least four exactly when they
contain all four layers (there are only four layers). -/
theorem probedLayers_full_iff (l : List ProbeLayer) (hnd : l.Nodup) :
    4 ≤ l.length ↔
      (ProbeLayer.recall ∈ l ∧ ProbeLayer.mechanism ∈ l ∧
       ProbeLayer.clinical ∈ l ∧ ProbeLayer.quantitative ∈ l) := by
  have hcard : l.toFinset.card = l.length := List.toFinset_card_of_nodup hnd
  have hcardP : Fintype.card ProbeLayer = 4 := by decide
  constructor
  · intro h
    have hle : l.toFinset.card ≤ Fintype.card ProbeLayer :=
      Finset.card_le_univ _
    have huniv : l.toFinset = Finset.univ :=
      Finset.eq_univ_of_card _ (by omega)
    have hmem : ∀ x : ProbeLayer, x ∈ l := by
      intro x
      have : x ∈ l.toFinset := by rw [huniv]; exact Finset.mem_univ x
      exact List.mem_toFinset.mp this
    exact ⟨hmem _, hmem _, hmem _, hmem _⟩
  · rintro ⟨h1, h2, h3, h4⟩
    have hsub : (Finset.univ : Finset ProbeLayer) ⊆ l.toFinset := by
      intro x _
      cases x <;> exact List.mem_toFinset.mpr (by assumption)
    have hle := Finset.card_le_card hsub
    have huc : (Finset.univ : Finset ProbeLayer).card = 4 := hcardP
    omega

/-- C2: for a vertex present in the session whose probed-layer list has no
duplicates (the invariant `recordProbe` maintains), the layer-completion
policy holds exactly when the probed-layer set contains all four layers, or
at least two logged probes for the vertex scored at most 2, or at least two
scored at least 4. -/
theorem isVertexLayerComplete_iff (s : PexSessionState) (v : String)
    (vs : VertexState) (hv : s.vertices.lookup v = some vs)
    (hnd : vs.probedLayers.Nodup) :
    isVertexLayerComplete s v = true ↔
      ((ProbeLayer.recall ∈ vs.probedLayers ∧
        ProbeLayer.mechanism ∈ vs.probedLayers ∧
        ProbeLayer.clinical ∈ vs.probedLayers ∧
        ProbeLayer.quantitative ∈ vs.probedLayers) ∨
       2 ≤ (s.probeHistory.filter (fun p => p.vertex == v)).countP
          (fun p => decide (p.score ≤ 2)) ∨
       2 ≤ (s.probeHistory.filter (fun p => p.vertex == v)).countP
          (fun p => decide (4 ≤ p.score))) := by
  rw [← probedLayers_full_iff vs.probedLayers hnd]
  simp only [isVertexLayerComplete, hv, List.countP_eq_length_filter]
  split_ifs with h1 h2 h3 <;> simp_all

/-- Vertex state of the confirmed-gap fixture: two layers probed. -/
def gapVertexState : VertexState :=
  { name := "Fick"
    description := "Fick principle"
    domains := ["Physiology"]
    subTopics := []
    bestScore := 2
    quadrant := some .GAP
    probeCount := 2
    filled := false
    corrected := false
    probedLayers := [.recall, .mechanism] }

/-- Session fixture with two weak probes (scores 1 and 2) on one vertex. -/
def gapState : PexSessionState :=
  { phase := .probe
    college := "Both"
    domains := []
    depth := "Broad BFS"
    vertexQueue := ["Fick"]
    currentVertexIndex := 0
    vertices := [("Fick", gapVertexState)]
    probeHistory :=
      [ { vertex := "Fick", layer := .recall, level := 1, score := 1,
          quadrant := .GAP, answerSummary := "", confident := false,
          timestamp := 0 },
        { vertex := "Fick", layer := .mechanism, level := 1, score := 2,
          quadrant := .GAP, answerSummary := "", confident := false,
          timestamp := 1 } ]
    startedAt := 0 }

/-- Witness for C2: on the two-weak-probe fixture the policy equivalence is
an instance of the theorem (and both sides are true: two probes scored at
most 2). -/
theorem isVertexLayerComplete_iff_witness :
    isVertexLayerComplete gapState "Fick" = true ↔
      ((ProbeLayer.recall ∈ gapVertexState.probedLayers ∧
        ProbeLayer.mechanism ∈ gapVertexState.probedLayers ∧
        ProbeLayer.clinical ∈ gapVertexState.probedLayers ∧
        ProbeLayer.quantitative ∈ gapVertexState.probedLayers) ∨
       2 ≤ (gapState.probeHistory.filter
            (fun p => p.vertex == "Fick")).countP
          (fun p => decide (p.score ≤ 2)) ∨
       2 ≤ (gapState.probeHistory.filter
            (fun p => p.vertex == "Fick")).countP
          (fun p => decide (4 ≤ p.score))) :=
  isVertexLayerComplete_iff gapState "Fick" gapVertexState (by rfl)
    (by decide)

/-- Accumulator record written by steps 1 to 3 of `analyzeProbe` (the value
`beliefUpdate` stores for the probed vertex). -/
def beliefAfter (bs : BeliefState) (params : AnalyzeParams) (now : Int) :
    VertexBelief :=
  let layerProbe := mkLayerProbe params now
  let existingBeliefs :=
    (bs.vertexBeliefs.lookup params.vertex).getD emptyVertexBelief
  let updatedLayers := existingBeliefs.layers ++ [layerProbe]
  let scores := updatedLayers.map (fun l => l.score)
  let overallStrength : Rat :=
    ((scores.foldl (· + ·) 0 : Int) : Rat) / (scores.length : Rat)
  let confidenceCalibration := calculateConfidenceCalibration updatedLayers
  { existingBeliefs with
    layers := updatedLayers
    overallStrength := ((jsRound (overallStrength * 10) : Int) : Rat) / 10
    confidenceCalibration :=
      ((jsRound (confidenceCalibration * 100) : Int) : Rat) / 100 }

theorem beliefUpdate_lookup (bs : BeliefState) (params : AnalyzeParams)
    (now : Int) :
    (beliefUpdate bs params now).vertexBeliefs.lookup params.vertex =
      some (beliefAfter bs params now) := by
  simp only [beliefUpdate]
  rw [lookup_setEntry, if_pos rfl]
  rfl

/-- C4: when the external language-model call throws or its output is
unparseable, `analyzeProbe` still resolves with an analysis that echoes the
raw score and confidence through the classifier, with no misconceptions and
surface depth; and the belief-state update from steps 1 to 3 (layer append,
recomputed overall strength, recomputed confidence calibration) is retained
regardless of the failure. -/
theorem analyzeProbe_fallback_on_failure (bs : BeliefState)
    (params : AnalyzeParams) (now : Int) :
    (analyzeProbe bs params now none).2.adjustedScore = params.rawScore ∧
    (analyzeProbe bs params now none).2.adjustedConfidence =
      params.confident ∧
    (analyzeProbe bs params now none).2.quadrant =
      classifyQuadrant params.rawScore params.confident ∧
    (analyzeProbe bs params now none).2.misconceptions = [] ∧
    (analyzeProbe bs params now none).2.depthReached = "surface" ∧
    (analyzeProbe bs params now none).1 = beliefUpdate bs params now ∧
    ∃ b, (analyzeProbe bs params now none).1.vertexBeliefs.lookup
          params.vertex = some b ∧
      b.layers =
        ((bs.vertexBeliefs.lookup params.vertex).getD
          emptyVertexBelief).layers ++ [mkLayerProbe params now] ∧
      b.overallStrength =
        ((jsRound ((((b.layers.map (fun l => l.score)).foldl (· + ·) 0 :
          Int) : Rat) / ((b.layers.map (fun l => l.score)).length : Rat)
          * 10) : Int) : Rat) / 10 ∧
      b.confidenceCalibration =
        ((jsRound (calculateConfidenceCalibration b.layers * 100) : Int) :
          Rat) / 100 :=
  ⟨rfl, rfl, rfl, rfl, rfl, rfl,
    ⟨beliefAfter bs params now, beliefUpdate_lookup bs params now,
      rfl, rfl, rfl⟩⟩

/-- C6: the queue builder is deterministic; with college Both the filtered
list keeps catalog order with no re-sorting; with a specific college the
result is sorted descending by that college's per-vertex weight and the
sort is stable: two vertices of equal weight keep their relative catalog
order. -/
theorem buildVertexQueue_stable_sorted (domains : List String)
    (college : String) (u v : String)
    (hc : college = "CICM" ∨ college = "ANZCA")
    (hw : collegeWeight college u = collegeWeight college v)
    (huv : [u, v].Sublist (DEFAULT_PRIORITY.filter (domainMatch domains))) :
    buildVertexQueue domains college = buildVertexQueue domains college ∧
    buildVertexQueue domains "Both" =
      DEFAULT_PRIORITY.filter (domainMatch domains) ∧
    (buildVertexQueue domains college).Pairwise
      (fun a b => collegeWeight college b ≤ collegeWeight college a) ∧
    [u, v].Sublist (buildVertexQueue domains college) := by
  have hnb : ¬(college = "Both") := by
    rcases hc with h | h <;> simp [h]
  have hbq : buildVertexQueue domains college =
      (DEFAULT_PRIORITY.filter (domainMatch domains)).mergeSort
        (fun a b =>
          decide (collegeWeight college b ≤ collegeWeight college a)) := by
    simp [buildVertexQueue, hnb]
  have htrans : ∀ a b c : String,
      decide (collegeWeight college b ≤ collegeWeight college a) = true →
      decide (collegeWeight college c ≤ collegeWeight college b) = true →
      decide (collegeWeight college c ≤ collegeWeight college a) = true := by
    intro a b c h1 h2
    simp only [decide_eq_true_eq] at *
    exact le_trans h2 h1
  have htotal : ∀ a b : String,
      (decide (collegeWeight college b ≤ collegeWeight college a) ||
       decide (collegeWeight college a ≤ collegeWeight college b)) =
        true := by
    intro a b
    simp only [Bool.or_eq_true, decide_eq_true_eq]
    exact le_total _ _
  refine ⟨rfl, by simp [buildVertexQueue], ?_, ?_⟩
  · rw [hbq]
    have hs := List.sorted_mergeSort htrans htotal
      (DEFAULT_PRIORITY.filter (domainMatch domains))
    exact hs.imp (fun h => by simpa using h)
  · rw [hbq]
    refine List.sublist_mergeSort htrans htotal ?_ huv
    simp [List.pairwise_cons, hw]

/-- Witness for C6 at an empty domain filter, college CICM, and the two
equal-weight vertices at catalog positions 0 and 2. -/
theorem buildVertexQueue_stable_sorted_witness :
    buildVertexQueue [] "CICM" = buildVertexQueue [] "CICM" ∧
    buildVertexQueue [] "Both" =
      DEFAULT_PRIORITY.filter (domainMatch []) ∧
    (buildVertexQueue [] "CICM").Pairwise
      (fun a b => collegeWeight "CICM" b ≤ collegeWeight "CICM" a) ∧
    ["Flow=ΔP/R", "Fick"].Sublist (buildVertexQueue [] "CICM") :=
  buildVertexQueue_stable_sorted [] "CICM" "Flow=ΔP/R" "Fick"
    (Or.inl rfl) (by rfl) (by decide)

/-- Probe input carrying an out-of-domain score of 7, as passed through by
executeRecordProbe in pex_interview.ts, which forwards the score argument
to `recordProbe` without clamping or rejection. -/
def outOfRangeProbe : ProbeInput :=
  { vertex := "Fick"
    layer := .recall
    level := 1
    score := 7
    confident := true
    answerSummary := "" }

/-- Analyzer call carrying the same out-of-domain raw score of 7, forwarded
into the belief store by `analyzeProbe` without clamping (only the
language-model adjusted score is clamped). -/
def outOfRangeParams : AnalyzeParams :=
  { vertex := "Fick"
    vertexDescription := ""
    layer := .recall
    question := ""
    answerSummary := ""
    rawScore := 7
    confident := true }

/-- Empty belief state (the analyzer's initial state). -/
def emptyBeliefState : BeliefState :=
  { vertexBeliefs := [], sessionInsights := [] }

/-- C8 evaluation: a score of 7 is not rejected or clamped at any boundary;
it is stored verbatim in the probe log, raises the stored bestScore to 7,
and enters the belief store as a layer score of 7 — all outside [1,5]. -/
theorem out_of_range_score_enters_both_stores :
    ((recordProbe demoState outOfRangeProbe 0).vertices.lookup "Fick").map
        (fun w => w.bestScore) = some 7 ∧
    (∃ pr ∈ (recordProbe demoState outOfRangeProbe 0).probeHistory,
      pr.score = 7) ∧
    ((analyzeProbe emptyBeliefState outOfRangeParams 0
        none).1.vertexBeliefs.lookup "Fick").map
        (fun b => b.layers.map (fun l => l.score)) = some [7] := by
  refine ⟨by rfl, ?_, by rfl⟩
  exact ⟨{ vertex := "Fick", layer := .recall, level := 1, score := 7,
           quadrant := .SOLID, answerSummary := "", confident := true,
           timestamp := 0 }, by decide, rfl⟩
